import Mathlib

/-!
Verification of the wallet activity classifier of the Ranked repository.

The embedded code is the current (second) revision of
`src/frontend/src/lib/basescan.ts` (`fetchWalletScore`, the pipeline that
fetches five data slices from Blockscout and accumulates builder/degen
scores) together with the personality/percentage derivation of
`src/frontend/src/app/api/wallet/[address]/route.ts` (`GET`).  The first
revision of `basescan.ts` (the variant that defines `DEX_ROUTERS` and
`DEX_SIGNATURES` and skips matching transactions) is embedded separately
where a claim refers to it.

Modelling conventions:
* JavaScript numbers holding integer counts/scores are `Nat`; monetary
  and balance arithmetic (`/ 1e18`, `* 3500`, `Math.round`, ...) is done
  in `ℚ` (exact rationals idealising IEEE doubles; every constant in the
  source, and every value a claim inspects, is exactly representable).
* `x?.y` optional chaining becomes `Option`; `|| fallback` on a missing
  or falsy value becomes `Option.getD` (with the source's falsy cases
  noted inline).
* Each of the five Blockscout sub-queries is a `Resp`: `ok payload`
  (HTTP 2xx with parsed JSON), `notOk` (`response.ok` false, the stage
  body is skipped), or `threw` (the fetch rejected or `.json()` threw;
  control jumps to the single `catch` at the end of the function, so all
  later stages are skipped as well).
-/

/-- JavaScript `String.prototype.toLowerCase` for the ASCII strings this
code handles (addresses, selectors, symbols), written over the character
list so that concrete inputs reduce in the kernel. -/
def toLowerCase (s : String) : String := ⟨s.data.map Char.toLower⟩

/-- JavaScript `String.prototype.toUpperCase` for ASCII strings. -/
def toUpperCase (s : String) : String := ⟨s.data.map Char.toUpper⟩

/-- JavaScript `s.slice(0, n)` on a string, over the character list. -/
def sliceTo (s : String) (n : ℕ) : String := ⟨s.data.take n⟩

/-- The four categorical labels of `WalletScore['classification']`. -/
inductive Classification where
  | Builder
  | Degen
  | Balanced
  | New
deriving DecidableEq, Repr

/-- JavaScript `Math.round`, which rounds ties toward positive infinity:
`Math.round x = ⌊x + 1/2⌋`. -/
def jsRound (q : ℚ) : ℤ := ⌊q + 1/2⌋

/-- Classification decision of `fetchWalletScore`
(`src/frontend/src/lib/basescan.ts`, second revision, lines 452-462):
an if/else chain over `totalTransactions`, `builderScore`, `degenScore`
and `contractsDeployed`.  The source compares with the float literal
`1.5`; scores are integers, so the comparison is exact and is embedded
over `ℚ`. -/
def classificationOf (builderScore degenScore totalTransactions contractsDeployed : ℕ) :
    Classification :=
  if totalTransactions = 0 then .New
  else if builderScore = 0 ∧ degenScore = 0 then .Balanced
  else if (builderScore : ℚ) ≥ (degenScore : ℚ) * 1.5 ∧ contractsDeployed > 0 then .Builder
  else if (degenScore : ℚ) ≥ (builderScore : ℚ) * 1.5 then .Degen
  else .Balanced

/-- Classification decision as worded by the specification ("apply in
order, first match wins"): totalTransactionCount == 0 gives New;
builderScore == 0 and degenScore == 0 gives Balanced; builderScore at
least degenScore times 1.5 with contractsDeployed positive gives
Builder; degenScore at least builderScore times 1.5 gives Degen;
otherwise Balanced. -/
def classificationSpec (builderScore degenScore totalTransactionCount contractsDeployed : ℕ) :
    Classification :=
  if totalTransactionCount = 0 then .New
  else if builderScore = 0 ∧ degenScore = 0 then .Balanced
  else if (degenScore : ℚ) * 1.5 ≤ (builderScore : ℚ) ∧ 0 < contractsDeployed then .Builder
  else if (builderScore : ℚ) * 1.5 ≤ (degenScore : ℚ) then .Degen
  else .Balanced

/-- Result record of `fetchWalletScore` (interface `WalletScore`).
`ethBalance` is a 4-decimal display string in the source; it is embedded
as the exact rational balance (no claim inspects its digits).
`totalVolumeUSD` is `Math.round`ed to an integer by the source. -/
structure WalletScore where
  address : String
  builderScore : ℕ
  degenScore : ℕ
  totalTransactions : ℕ
  contractsDeployed : ℕ
  tokenTransfers : ℕ
  classification : Classification
  ethBalance : ℚ
  totalVolumeUSD : ℤ
  topDapp : String
  topDappInteractions : ℕ
deriving DecidableEq, Repr

/-- Outcome of one Blockscout sub-query as observed by the pipeline. -/
inductive Resp (α : Type) where
  | ok (payload : α)
  | notOk
  | threw
deriving DecidableEq, Repr

/-- True when the sub-query did not return a usable payload. -/
def Resp.failed : Resp α → Bool
  | .ok _ => false
  | _ => true

/-- True when the sub-query raised (fetch rejection / JSON parse error),
which transfers control to the function-level `catch`. -/
def Resp.isThrow : Resp α → Bool
  | .threw => true
  | _ => false

/-- Payload of `GET /addresses/{a}`: only `coin_balance` is read (a decimal
wei string; `none` models an absent/falsy field). -/
structure AddressData where
  coinBalance : Option ℕ
deriving DecidableEq, Repr

/-- Payload of `GET /addresses/{a}/counters`.  The source runs
`parseInt(c.transactions_count) || 0`; a `none` field models a missing
or unparseable count (the `|| 0` also maps a parsed 0 to 0, which
`Option.getD 0` reproduces). -/
structure Counters where
  transactionsCount : Option ℕ
  tokenTransfersCount : Option ℕ
deriving DecidableEq, Repr

/-- One item of `GET /addresses/{a}/transactions` (the fields the second
revision reads). -/
structure Tx where
  fromHash : Option String
  toHash : Option String
  value : Option ℕ
  feeValue : Option ℕ
  createdContract : Bool
  transactionTypes : Option (List String)
  method : Option String
deriving DecidableEq, Repr

/-- One item of `GET /addresses/{a}/token-transfers`. -/
structure Transfer where
  fromHash : Option String
  toHash : Option String
  tokenSymbol : Option String
  tokenDecimals : Option ℕ
  totalValue : Option ℕ
  value : Option ℕ
deriving DecidableEq, Repr

/-- One item of `GET /addresses/{a}/internal-transactions` (only
`to.hash` is read). -/
structure InternalTx where
  toHash : Option String
deriving DecidableEq, Repr

/-- The five sub-query responses a single `fetchWalletScore` call
consumes, in the order the source awaits them. -/
structure SubResponses where
  addressResp : Resp AddressData
  countersResp : Resp Counters
  txResp : Resp (Option (List Tx))
  tokenResp : Resp (Option (List Transfer))
  internalResp : Resp (Option (List InternalTx))
deriving DecidableEq, Repr

/-- The module-level constant `KNOWN_DAPPS` (second revision of
`basescan.ts`): address to display-name, insertion order preserved. -/
def KNOWN_DAPPS : List (String × String) :=
  [("0x3fc91a3afd70395cd496c647d5a6cc9d4b2b7fad", "Uniswap"),
   ("0x2626664c2603336e57b271c5c0b26f421741e481", "Uniswap V3"),
   ("0x198ef79f1f515f02dfe9e3115ed9fc07183f02fc", "Aerodrome"),
   ("0xcf77a3ba9a5ca399b7c97c74d54e5b1beb874e43", "Aerodrome Router"),
   ("0x6cb442acf35158d5eda88fe602571dbe4e0c5cd5", "BaseSwap"),
   ("0x327df1e6de05895d2ab08513aadd9313fe505d86", "SushiSwap"),
   ("0x1231deb6f5749ef6ce6943a275a1d3e7486f4eae", "LI.FI"),
   ("0x0000000000001ff3684f28c67538d4d072c22734", "Across Bridge"),
   ("0x49048044d57e1c92a77f79988d21fa8faf74e97e", "Base Bridge"),
   ("0x8453fc6cd17a1654029e0d40610527ef9ed56e7a", "Friend.tech"),
   ("0xc5a076cad94176c2996b32d8466be1ce757faa27", "Mint.fun"),
   ("0x00000000000000adc04c56bf30ac9d3c0aaf14dc", "Seaport (OpenSea)"),
   ("0x0000000000a39bb272e79075ade125fd351887ac", "Blur"),
   ("0xd4416b13d2b3a9abae7acd5d6c2bbdbe25686401", "PoolTogether"),
   ("0x833589fcd6edb6e08f4c7c32d4f71b54bda02913", "USDC"),
   ("0x4200000000000000000000000000000000000006", "WETH"),
   ("0x532f27101965dd16442e59d40670faf5ebb142e4", "Brett Token"),
   ("0xac1bd2486aaf3b5c0fc3fd868558b082a531b2b4", "Toshi Token")]

/-- Request-local accumulator of `fetchWalletScore`: the mutable `let`
bindings declared at the top of the function (plus `dappInteractions`,
kept as an insertion-ordered association list mirroring a JS object). -/
structure ScoreAcc where
  builderScore : ℕ
  degenScore : ℕ
  contractsDeployed : ℕ
  tokenTransfers : ℕ
  totalTransactions : ℕ
  ethBalance : ℚ
  totalVolumeUSD : ℚ
  dappInteractions : List (String × ℕ)
deriving DecidableEq, Repr

/-- Initial accumulator values (all zero, `ethBalance = '0'`). -/
def initAcc : ScoreAcc :=
  ⟨0, 0, 0, 0, 0, 0, 0, []⟩

/-- JS object update `dappInteractions[name] = (dappInteractions[name] || 0) + 1`: bump the existing key in place, else append (JS objects preserve
key insertion order for `Object.entries`). -/
def bump : List (String × ℕ) → String → List (String × ℕ)
  | [], name => [(name, 1)]
  | (k, v) :: rest, name =>
      if k = name then (k, v + 1) :: rest else (k, v) :: bump rest name

/-- Stage 1: `coin_balance` handling (the source renders
`Number(wei)/1e18` to a 4-decimal string; embedded as the exact
rational). -/
def applyAddress (a : ScoreAcc) (d : AddressData) : ScoreAcc :=
  match d.coinBalance with
  | some wei => { a with ethBalance := (wei : ℚ) / 10 ^ 18 }
  | none => a

/-- Stage 2: `totalTransactions = parseInt(c.transactions_count) || 0`
and likewise `tokenTransfers`. -/
def applyCounters (a : ScoreAcc) (c : Counters) : ScoreAcc :=
  { a with
    totalTransactions := c.transactionsCount.getD 0
    tokenTransfers := c.tokenTransfersCount.getD 0 }

/-- Loop body of stage 3 for one transaction: dApp tracking, native
volume, fee volume, then deployment (with `continue`) or the outgoing
degen heuristics. -/
def applyOneTx (dapps : List (String × String)) (addr : String) (a : ScoreAcc) (tx : Tx) : ScoreAcc :=
  let fromAddress := (tx.fromHash.map toLowerCase).getD ""
  let toAddress := (tx.toHash.map toLowerCase).getD ""
  let isOutgoing := fromAddress = addr
  let a :=
    if toAddress ≠ "" then
      match dapps.lookup toAddress with
      | some name => { a with dappInteractions := bump a.dappInteractions name }
      | none => a
    else a
  let a :=
    match tx.value with
    | some v =>
        if v ≠ 0 then
          let valueEth : ℚ := (v : ℚ) / 10 ^ 18
          if valueEth > 0.0001 then
            { a with totalVolumeUSD := a.totalVolumeUSD + valueEth * 3500 }
          else a
        else a
    | none => a
  let a :=
    match tx.feeValue with
    | some f => { a with totalVolumeUSD := a.totalVolumeUSD + (f : ℚ) / 10 ^ 18 * 3500 }
    | none => a
  if tx.createdContract ∧ isOutgoing then
    { a with builderScore := a.builderScore + 10, contractsDeployed := a.contractsDeployed + 1 }
  else if isOutgoing then
    let txTypes := tx.transactionTypes.getD []
    let a :=
      if txTypes.contains "contract_call" then { a with degenScore := a.degenScore + 1 } else a
    let a :=
      if tx.method = some "mint" ∨ tx.method = some "claim" then
        { a with degenScore := a.degenScore + 2 }
      else a
    if tx.method = some "swap" ∨ tx.method = some "swapExactTokensForTokens" ∨
        tx.method = some "swapExactETHForTokens" ∨ tx.method = some "execute" then
      { a with degenScore := a.degenScore + 3 }
    else a
  else a

/-- Stage 3: iterate `txData.items || []`. -/
def applyTx (dapps : List (String × String)) (addr : String) (a : ScoreAcc)
    (items : Option (List Tx)) : ScoreAcc :=
  (items.getD []).foldl (applyOneTx dapps addr) a

/-- Loop body of stage 4 for one token transfer: volume estimation, then
the two independent degen branches (sender +2, receiver +1). -/
def applyOneTransfer (addr : String) (a : ScoreAcc) (t : Transfer) : ScoreAcc :=
  let fromAddress := (t.fromHash.map toLowerCase).getD ""
  let toAddress := (t.toHash.map toLowerCase).getD ""
  let tokenSymbol := (t.tokenSymbol.map toUpperCase).getD ""
  -- `parseInt(decimals) || 18`: a parsed 0 is falsy and also falls back to 18
  let tokenDecimals := match t.tokenDecimals with
    | some n => if n = 0 then 18 else n
    | none => 18
  -- `transfer.total?.value || transfer.value || '0'` then the `!== '0'` guard
  let rawValue : ℕ := match t.totalValue with
    | some v => v
    | none => t.value.getD 0
  let a :=
    if rawValue ≠ 0 then
      let value : ℚ := (rawValue : ℚ) / 10 ^ tokenDecimals
      if tokenSymbol ∈ ["USDC", "USDT", "DAI", "USDB", "USDbC"] then
        { a with totalVolumeUSD := a.totalVolumeUSD + value }
      else if tokenSymbol ∈ ["WETH", "ETH"] then
        { a with totalVolumeUSD := a.totalVolumeUSD + value * 3500 }
      else if value > 0 then
        { a with totalVolumeUSD := a.totalVolumeUSD + value * 0.1 }
      else a
    else a
  let a := if fromAddress = addr then { a with degenScore := a.degenScore + 2 } else a
  if toAddress = addr then { a with degenScore := a.degenScore + 1 } else a

/-- Stage 4: iterate `tokenData.items || []`. -/
def applyToken (addr : String) (a : ScoreAcc) (items : Option (List Transfer)) : ScoreAcc :=
  (items.getD []).foldl (applyOneTransfer addr) a

/-- Stage 5: internal transactions only feed dApp tracking. -/
def applyOneInternal (dapps : List (String × String)) (a : ScoreAcc) (itx : InternalTx) : ScoreAcc :=
  let toAddress := (itx.toHash.map toLowerCase).getD ""
  if toAddress ≠ "" then
    match dapps.lookup toAddress with
    | some name => { a with dappInteractions := bump a.dappInteractions name }
    | none => a
  else a

/-- Stage 5 loop over `internalData.items || []`. -/
def applyInternal (dapps : List (String × String)) (a : ScoreAcc)
    (items : Option (List InternalTx)) : ScoreAcc :=
  (items.getD []).foldl (applyOneInternal dapps) a

/-- Stage 6: flat bulk-activity bonuses (cumulative: a count above 1000
receives both the +5 and the +2 builder bonus, likewise degen). -/
def applyBonuses (a : ScoreAcc) : ScoreAcc :=
  let a := if a.totalTransactions > 1000 then { a with builderScore := a.builderScore + 5 } else a
  let a := if a.totalTransactions > 100 then { a with builderScore := a.builderScore + 2 } else a
  let a := if a.tokenTransfers > 100 then { a with degenScore := a.degenScore + 5 } else a
  if a.tokenTransfers > 50 then { a with degenScore := a.degenScore + 2 } else a

/-- Run the staged pipeline inside the single `try` block: a `notOk`
response skips its own stage (`if (response.ok)`), while a `threw`
response jumps to the function-level `catch`, skipping every later stage
including the bonus stage. -/
def fetchAcc (dapps : List (String × String)) (addr : String) (r : SubResponses) : ScoreAcc :=
  let a0 := initAcc
  match r.addressResp with
  | .threw => a0
  | ra =>
    let a1 := match ra with
      | .ok d => applyAddress a0 d
      | _ => a0
    match r.countersResp with
    | .threw => a1
    | rc =>
      let a2 := match rc with
        | .ok c => applyCounters a1 c
        | _ => a1
      match r.txResp with
      | .threw => a2
      | rt =>
        let a3 := match rt with
          | .ok items => applyTx dapps addr a2 items
          | _ => a2
        match r.tokenResp with
        | .threw => a3
        | rk =>
          let a4 := match rk with
            | .ok items => applyToken addr a3 items
            | _ => a3
          match r.internalResp with
          | .threw => a4
          | ri =>
            let a5 := match ri with
              | .ok items => applyInternal dapps a4 items
              | _ => a4
            applyBonuses a5

/-- Fold over `Object.entries` that picks the first strictly-largest dApp
count, defaulting to `("None", 0)`. -/
def topOf (l : List (String × ℕ)) : String × ℕ :=
  l.foldl (fun best p => if p.2 > best.2 then p else best) ("None", 0)

/-- Build the returned `WalletScore` record from the accumulator. -/
def finalize (addr : String) (a : ScoreAcc) : WalletScore :=
  let top := topOf a.dappInteractions
  { address := addr
    builderScore := a.builderScore
    degenScore := a.degenScore
    totalTransactions := a.totalTransactions
    contractsDeployed := a.contractsDeployed
    tokenTransfers := a.tokenTransfers
    classification :=
      classificationOf a.builderScore a.degenScore a.totalTransactions a.contractsDeployed
    ethBalance := a.ethBalance
    totalVolumeUSD := jsRound a.totalVolumeUSD
    topDapp := top.1
    topDappInteractions := top.2 }

/-- The function `fetchWalletScore` (second revision) of the address
and the five sub-query outcomes, parameterised by the `KNOWN_DAPPS`
table it reads. -/
def fetchWalletScoreCore (dapps : List (String × String)) (address : String)
    (r : SubResponses) : WalletScore :=
  finalize (toLowerCase address) (fetchAcc dapps (toLowerCase address) r)

/-- Specialisation of the pipeline to the module-level `KNOWN_DAPPS` table. -/
def fetchWalletScore (address : String) (r : SubResponses) : WalletScore :=
  fetchWalletScoreCore KNOWN_DAPPS address r

/-- Table `DEX_ROUTERS` of the first revision of `basescan.ts`: router
addresses excluded from degen scoring there. -/
def DEX_ROUTERS : List String :=
  ["0x2626664c2603336e57b271c5c0b26f421741e481",
   "0x3fc91a3afd70395cd496c647d5a6cc9d4b2b7fad",
   "0xcf77a3ba9a5ca399b7c97c74d54e5b1beb874e43",
   "0x6131b5fae19ea4f9d964eac0408e4408b66337b5"]

/-- Table `DEX_SIGNATURES` of the first revision: swap method selectors. -/
def DEX_SIGNATURES : List String :=
  ["0x38ed1739", "0x8803dbee", "0x7ff36ab5", "0x4a25d94a",
   "0x18cbafe5", "0xfb3bdb41", "0x5ae401dc", "0xac9650d8",
   "0x04e45aaf", "0xb858183f", "0x5023b4df", "0x09b81346"]

/-- One transaction as read by the first revision's loop (lines 87-115
of `basescan.ts`): `raw_input` supplies the method selector. -/
structure TxV1 where
  fromHash : Option String
  toHash : Option String
  rawInput : Option String
  createdContract : Bool
  transactionTypes : Option (List String)
deriving DecidableEq, Repr

/-- Lower-cased receiver of a first-revision transaction
(`tx.to?.hash?.toLowerCase() || ''`). -/
def TxV1.toAddress (tx : TxV1) : String :=
  (tx.toHash.map toLowerCase).getD ""

/-- Method selector of a first-revision transaction
(`tx.raw_input?.slice(0, 10)?.toLowerCase() || ''`). -/
def TxV1.methodSig (tx : TxV1) : String :=
  (tx.rawInput.map (fun s => toLowerCase (sliceTo s 10))).getD ""

/-- Degen-score contribution of one transaction in the first revision's
loop: 0 for deployments and incoming transactions, 0 when the receiver
is a known DEX router or the selector a known swap selector (the
`continue`), and 1 for a remaining outgoing `contract_call` that is not
a `coin_transfer`. -/
def txDegenDeltaV1 (addr : String) (tx : TxV1) : ℕ :=
  let fromAddress := (tx.fromHash.map toLowerCase).getD ""
  let isOutgoing := fromAddress = addr
  if tx.createdContract ∧ isOutgoing then 0
  else if isOutgoing then
    if tx.toAddress ∈ DEX_ROUTERS ∨ tx.methodSig ∈ DEX_SIGNATURES then 0
    else
      let txTypes := tx.transactionTypes.getD []
      if txTypes.contains "contract_call" ∧ ¬ txTypes.contains "coin_transfer" then 1 else 0
  else 0

/-- Total degen score the first revision's transaction loop accumulates
over a fetched transaction list. -/
def degenFromTxsV1 (addr : String) (txs : List TxV1) : ℕ :=
  txs.foldl (fun acc tx => acc + txDegenDeltaV1 addr tx) 0

/-- Computation of `builderPercentage` in the wallet API route
(`route.ts` lines 89-92): `totalScore > 0 ?
Math.round((builderScore / totalScore) * 100) : 50`. -/
def builderPercentage (builderScore degenScore : ℕ) : ℤ :=
  let totalScore := builderScore + degenScore
  if totalScore > 0 then
    jsRound ((builderScore : ℚ) / (totalScore : ℚ) * 100)
  else 50

/-- Definition `degenPercentage = 100 - builderPercentage` (`route.ts` line 93). -/
def degenPercentage (builderScore degenScore : ℕ) : ℤ :=
  100 - builderPercentage builderScore degenScore

/-- Personality chain of the wallet API route (`route.ts` lines 96-109). -/
def personalityOf (classification : Classification) (builderScore degenScore : ℕ) : String :=
  let bp := builderPercentage builderScore degenScore
  let dp := degenPercentage builderScore degenScore
  if classification = .New then "New to Base"
  else if bp ≥ 80 then "Ultimate Builder"
  else if bp ≥ 60 then "Builder-Leaning"
  else if dp ≥ 80 then "Full Degen"
  else if dp ≥ 60 then "Degen-Curious"
  else "Perfectly Balanced"

/-- Builder percentage as worded by the claim: round(100 × builderScore
/ (builderScore + degenScore)), defaulting to 50 when both scores are
zero. -/
def builderPercentageSpec (builderScore degenScore : ℕ) : ℤ :=
  if builderScore = 0 ∧ degenScore = 0 then 50
  else jsRound (100 * (builderScore : ℚ) / ((builderScore : ℚ) + (degenScore : ℚ)))

/-- Personality label as worded by the claim, checked in order, with
degenPercentage = 100 - builderPercentage. -/
def personalitySpec (classification : Classification) (builderScore degenScore : ℕ) : String :=
  let bp := builderPercentageSpec builderScore degenScore
  let dp := 100 - bp
  if classification = .New then "New to Base"
  else if 80 ≤ bp then "Ultimate Builder"
  else if 60 ≤ bp then "Builder-Leaning"
  else if 80 ≤ dp then "Full Degen"
  else if 60 ≤ dp then "Degen-Curious"
  else "Perfectly Balanced"

/-- Module-level bindings of `basescan.ts` (second revision) that
`fetchWalletScore` can read: only the constant `KNOWN_DAPPS` table.  The
function body contains no assignment to any module-level binding, so a
call leaves the state unchanged; the explicit state threading makes that
checkable. -/
structure ModuleState where
  knownDapps : List (String × String)
deriving DecidableEq, Repr

/-- Module state at process start. -/
def initModuleState : ModuleState :=
  ⟨KNOWN_DAPPS⟩

/-- One `fetchWalletScore` call as a state transformer over the module
state it can read or write: it reads `knownDapps` and writes nothing. -/
def fetchWalletScoreM (s : ModuleState) (address : String) (r : SubResponses) :
    WalletScore × ModuleState :=
  (fetchWalletScoreCore s.knownDapps address r, s)

/-- Replace a `notOk` sub-query outcome by a successful response with
the given empty/default payload; `ok` and `threw` are unchanged. -/
def Resp.orDefault (r : Resp α) (d : α) : Resp α :=
  match r with
  | .notOk => .ok d
  | x => x

/-- Replace every `notOk` slice of a response set by an `ok` response
whose payload contributes nothing: no `coin_balance`, missing counter
fields, and `items` absent (so `items || []` iterates nothing). -/
def okify (r : SubResponses) : SubResponses :=
  ⟨r.addressResp.orDefault ⟨none⟩,
   r.countersResp.orDefault ⟨none, none⟩,
   r.txResp.orDefault none,
   r.tokenResp.orDefault none,
   r.internalResp.orDefault none⟩

/-- No sub-query of the set raised. -/
def NoThrow (r : SubResponses) : Prop :=
  r.addressResp.isThrow = false ∧ r.countersResp.isThrow = false ∧
  r.txResp.isThrow = false ∧ r.tokenResp.isThrow = false ∧
  r.internalResp.isThrow = false

/-- Every sub-query of the set failed (non-OK status or raised). -/
def AllFailed (r : SubResponses) : Prop :=
  r.addressResp.failed = true ∧ r.countersResp.failed = true ∧
  r.txResp.failed = true ∧ r.tokenResp.failed = true ∧
  r.internalResp.failed = true

/-- An all-default result: every count zero, classification `New`,
balance `'0'`, volume 0, no top dApp — what the claim calls "a
WalletScore whose fields are all zero/default". -/
def emptyWalletScore (addr : String) : WalletScore :=
  ⟨toLowerCase addr, 0, 0, 0, 0, 0, .New, 0, 0, "None", 0⟩

/-- C1: the categorical classification is computed by exactly the
first-match-wins rule chain the specification states: zero transactions
give New; both scores zero give Balanced; builderScore at least 1.5
times degenScore with a deployed contract gives Builder; degenScore at
least 1.5 times builderScore gives Degen; otherwise Balanced. -/
theorem c1_classification_decision_chain :
    ∀ builderScore degenScore totalTransactionCount contractsDeployed : ℕ,
      classificationOf builderScore degenScore totalTransactionCount contractsDeployed =
        classificationSpec builderScore degenScore totalTransactionCount contractsDeployed := by
  intro b d t c
  rfl

/-- C6 fails as stated: the Builder branch of the classifier also
requires `contractsDeployed > 0`.  With builderScore 15, degenScore 10,
one transaction and no deployed contract, the result is Balanced, not
Builder. -/
theorem c6_ratio_boundary_counterexample :
    classificationOf 15 10 1 0 = Classification.Balanced ∧
    classificationOf 15 10 1 0 ≠ Classification.Builder := by
  have h : classificationOf 15 10 1 0 = Classification.Balanced := by
    norm_num [classificationOf]
  exact ⟨h, by rw [h]; decide⟩

/-- C6 amended: for an address with at least one transaction and at
least one deployed contract, builderScore 15 against degenScore 10
(ratio exactly 1.5) classifies as Builder, and against degenScore 11
(ratio below 1.5) as Balanced. -/
theorem c6_ratio_boundary (t c : ℕ) (ht : t ≠ 0) (hc : 0 < c) :
    classificationOf 15 10 t c = Classification.Builder ∧
    classificationOf 15 11 t c = Classification.Balanced := by
  constructor
  · unfold classificationOf
    rw [if_neg ht, if_neg (by norm_num), if_pos ⟨by norm_num, hc⟩]
  · unfold classificationOf
    rw [if_neg ht, if_neg (by norm_num), if_neg (by norm_num), if_neg (by norm_num)]

/-- Witness for the amended C6 at one transaction and one deployed
contract. -/
theorem c6_ratio_boundary_witness :
    (1 : ℕ) ≠ 0 ∧ 0 < (1 : ℕ) ∧
    classificationOf 15 10 1 1 = Classification.Builder ∧
    classificationOf 15 11 1 1 = Classification.Balanced :=
  ⟨by decide, by decide, c6_ratio_boundary 1 1 (by decide) (by decide)⟩

/-- A transaction whose receiver is the Uniswap universal router (a
member of the first revision's `DEX_ROUTERS`), outgoing from the queried
address, tagged `contract_call`, with method `execute`. -/
def dexTxCE : Tx :=
  ⟨some "0xaaaa00000000000000000000000000000000aaaa",
   some "0x3fc91a3afd70395cd496c647d5a6cc9d4b2b7fad",
   none, none, false, some ["contract_call"], some "execute"⟩

/-- Response set whose only transaction is `dexTxCE` and whose counters
report one transaction. -/
def dexRespCE : SubResponses :=
  ⟨.notOk, .ok ⟨some 1, some 0⟩, .ok (some [dexTxCE]), .ok none, .notOk⟩

/-- C2 fails on the current pipeline: it has no DEX exclusion at all.
An address whose single transaction targets a known DEX router (and
carries a swap-style method) has totalTransactions 1 and receives
degenScore 4 from that transaction (+1 contract_call, +3 execute), not
0. -/
theorem c2_dex_exclusion_counterexample :
    dexTxCE.toHash = some "0x3fc91a3afd70395cd496c647d5a6cc9d4b2b7fad" ∧
    "0x3fc91a3afd70395cd496c647d5a6cc9d4b2b7fad" ∈ DEX_ROUTERS ∧
    (fetchWalletScore "0xAAAA00000000000000000000000000000000aaaa" dexRespCE).totalTransactions
      = 1 ∧
    (fetchWalletScore "0xAAAA00000000000000000000000000000000aaaa" dexRespCE).degenScore = 4 := by
  refine ⟨rfl, by decide, by decide, by decide⟩

/-- Fold step invariance used for the first revision's transaction loop. -/
theorem degenFromTxsV1_all_zero (addr : String) :
    ∀ (txs : List TxV1) (acc : ℕ),
      (∀ tx ∈ txs, txDegenDeltaV1 addr tx = 0) →
      txs.foldl (fun acc tx => acc + txDegenDeltaV1 addr tx) acc = acc := by
  intro txs
  induction txs with
  | nil => intro acc _; rfl
  | cons tx rest ih =>
      intro acc h
      have h0 : txDegenDeltaV1 addr tx = 0 := h tx (List.mem_cons_self tx rest)
      have hrest : ∀ t ∈ rest, txDegenDeltaV1 addr t = 0 :=
        fun t ht => h t (List.mem_cons_of_mem tx ht)
      simp only [List.foldl_cons, h0, Nat.add_zero]
      exact ih acc hrest

/-- C2 amended: the DEX exclusion exists only in the first revision of
`fetchWalletScore` (the one defining `DEX_ROUTERS`/`DEX_SIGNATURES`).
There, every transaction whose receiver is a known DEX router or whose
method selector is a known swap selector contributes exactly 0 to
degenScore, so a transaction list made only of such transactions
contributes 0 in total; the current revision has no such exclusion and
scores them normally. -/
theorem c2_dex_exclusion_v1 (addr : String) (txs : List TxV1)
    (h : ∀ tx ∈ txs, tx.toAddress ∈ DEX_ROUTERS ∨ tx.methodSig ∈ DEX_SIGNATURES) :
    degenFromTxsV1 addr txs = 0 := by
  refine degenFromTxsV1_all_zero addr txs 0 (fun tx htx => ?_)
  simp only [txDegenDeltaV1]
  rcases h tx htx with hdex | hsig
  · split
    · rfl
    · split
      · rw [if_pos (Or.inl hdex)]
      · rfl
  · split
    · rfl
    · split
      · rw [if_pos (Or.inr hsig)]
      · rfl

/-- Witness for the amended C2: one transaction to a DEX router and one
transaction with a known swap selector contribute 0 degen score in the
first revision's loop. -/
theorem c2_dex_exclusion_v1_witness :
    (∀ tx ∈ ([⟨some "0xabc", some "0x2626664C2603336E57B271c5C0b26F421741e481",
                none, false, some ["contract_call"]⟩,
              ⟨some "0xabc", some "0xdddd00000000000000000000000000000000dddd",
                some "0x38ED1739ffffffffffffffff", false, some ["contract_call"]⟩] : List TxV1),
        tx.toAddress ∈ DEX_ROUTERS ∨ tx.methodSig ∈ DEX_SIGNATURES) ∧
    degenFromTxsV1 "0xabc"
      [⟨some "0xabc", some "0x2626664C2603336E57B271c5C0b26F421741e481",
          none, false, some ["contract_call"]⟩,
       ⟨some "0xabc", some "0xdddd00000000000000000000000000000000dddd",
          some "0x38ED1739ffffffffffffffff", false, some ["contract_call"]⟩] = 0 :=
  ⟨by decide, c2_dex_exclusion_v1 _ _ (by decide)⟩

/-- Response set for an address with zero transactions (counters report
0, no transaction items) but one incoming token transfer. -/
def zeroTxRespCE : SubResponses :=
  ⟨.notOk, .ok ⟨some 0, some 0⟩, .ok none,
   .ok (some [⟨some "0xbbbb00000000000000000000000000000000bbbb",
               some "0xcccc00000000000000000000000000000000cccc",
               none, none, none, none⟩]),
   .notOk⟩

/-- C3 fails as stated: an address with zero transactions can still
receive token transfers (airdrops, transfers mined by other parties),
and the receiver branch of the token-transfer pass adds 1 degen point.
The classification is still New, but degenScore is 1, not 0. -/
theorem c3_zero_transactions_counterexample :
    (fetchWalletScore "0xcccc00000000000000000000000000000000cccc" zeroTxRespCE).totalTransactions
      = 0 ∧
    (fetchWalletScore "0xcccc00000000000000000000000000000000cccc" zeroTxRespCE).classification
      = Classification.New ∧
    (fetchWalletScore "0xcccc00000000000000000000000000000000cccc" zeroTxRespCE).builderScore
      = 0 ∧
    (fetchWalletScore "0xcccc00000000000000000000000000000000cccc" zeroTxRespCE).degenScore
      = 1 := by
  refine ⟨by decide, by decide, by decide, by decide⟩

/-- C3 amended: for every address and fetched data with zero total
transactions, the classification is New (the first rule of the decision
chain); builderScore and degenScore are not forced to 0, because token
transfers can exist without any transaction of the address. -/
theorem c3_zero_transactions_new (addr : String) (r : SubResponses)
    (h : (fetchWalletScore addr r).totalTransactions = 0) :
    (fetchWalletScore addr r).classification = Classification.New := by
  have key : ∀ (s : String) (a : ScoreAcc), a.totalTransactions = 0 →
      (finalize s a).classification = Classification.New := by
    intro s a ha
    simp [finalize, classificationOf, ha]
  exact key _ _ h

/-- Witness for the amended C3 at a response set with failed counters. -/
theorem c3_zero_transactions_new_witness :
    (fetchWalletScore "0xcccc00000000000000000000000000000000cccc"
        ⟨.notOk, .notOk, .notOk, .notOk, .notOk⟩).totalTransactions = 0 ∧
    (fetchWalletScore "0xcccc00000000000000000000000000000000cccc"
        ⟨.notOk, .notOk, .notOk, .notOk, .notOk⟩).classification = Classification.New :=
  ⟨by decide, c3_zero_transactions_new _ _ (by decide)⟩

/-- A transaction that scores one degen point (outgoing contract call). -/
def callTxCE : Tx :=
  ⟨some "0xeeee00000000000000000000000000000000eeee", some "0xdddd", none, none, false,
   some ["contract_call"], none⟩

/-- C4 fails as stated for thrown (network-level) failures: the whole
pipeline sits in one try/catch, so a sub-query that throws prevents all
later sub-queries from contributing.  Here the counters sub-query throws
while the transactions sub-query succeeds with a degen-scoring
transaction; the result has degenScore 0.  Had the counters sub-query
merely returned a non-OK status, the transaction slice would have
contributed its point. -/
theorem c4_partial_failure_counterexample :
    (⟨.notOk, .threw, .ok (some [callTxCE]), .ok none, .notOk⟩ : SubResponses).countersResp.failed
      = true ∧
    (fetchWalletScore "0xeeee00000000000000000000000000000000eeee"
        ⟨.notOk, .threw, .ok (some [callTxCE]), .ok none, .notOk⟩).degenScore = 0 ∧
    (fetchWalletScore "0xeeee00000000000000000000000000000000eeee"
        ⟨.notOk, .notOk, .ok (some [callTxCE]), .ok none, .notOk⟩).degenScore = 1 := by
  refine ⟨by decide, by decide, by decide⟩

/-- C4 amended: a sub-query failing with a non-OK HTTP status degrades
to a zero/empty contribution for its own slice only — replacing every
non-OK response by a successful response with an empty payload leaves
the returned WalletScore unchanged — and the call always returns a
WalletScore. A sub-query that throws, however, also stops every later
sub-query from contributing (it is left untouched by `okify`, and the
counterexample shows the loss). -/
theorem c4_notok_failure_degrades_per_slice :
    ∀ (addr : String) (r : SubResponses),
      fetchWalletScore addr r = fetchWalletScore addr (okify r) := by
  intro addr r
  obtain ⟨ra, rc, rt, rk, ri⟩ := r
  rcases ra with ⟨⟨_ | wei⟩⟩ | _ | _ <;>
    cases rc <;> cases rt <;> cases rk <;> cases ri <;> rfl

/-- Rounding the zero volume gives zero. -/
theorem jsRound_zero : jsRound 0 = 0 := by
  norm_num [jsRound]

/-- C5: when every sub-query fails (non-OK status or thrown error), the
call still returns — all counts zero, classification New, balance `'0'`,
volume 0, no top dApp — instead of propagating an error (the function is
total: it returns a WalletScore on every input). -/
theorem c5_total_failure_returns_default (addr : String) (r : SubResponses)
    (h : AllFailed r) :
    fetchWalletScore addr r = emptyWalletScore addr := by
  obtain ⟨ra, rc, rt, rk, ri⟩ := r
  obtain ⟨h1, h2, h3, h4, h5⟩ := h
  cases ra <;> cases rc <;> cases rt <;> cases rk <;> cases ri <;>
    first
      | (simp [Resp.failed] at h1 h2 h3 h4 h5; done)
      | (simp [fetchWalletScore, fetchWalletScoreCore, fetchAcc, finalize, initAcc,
               applyBonuses, topOf, classificationOf, emptyWalletScore, jsRound_zero])

/-- Witness for C5 at a response set whose five sub-queries all fail. -/
theorem c5_total_failure_returns_default_witness :
    AllFailed ⟨.notOk, .threw, .notOk, .threw, .notOk⟩ ∧
    fetchWalletScore "0xFFFF00000000000000000000000000000000ffff"
        ⟨.notOk, .threw, .notOk, .threw, .notOk⟩ =
      emptyWalletScore "0xFFFF00000000000000000000000000000000ffff" :=
  ⟨⟨rfl, rfl, rfl, rfl, rfl⟩,
   c5_total_failure_returns_default "0xFFFF00000000000000000000000000000000ffff" _
     ⟨rfl, rfl, rfl, rfl, rfl⟩⟩

/-- C7: the wallet report's builderPercentage is
round(100 × builderScore / (builderScore + degenScore)), defaulting to
50 when both scores are zero, and the personality label follows exactly
the stated first-match chain (New to Base / Ultimate Builder /
Builder-Leaning / Full Degen / Degen-Curious / Perfectly Balanced). -/
theorem c7_personality_derivation :
    ∀ (cls : Classification) (b d : ℕ),
      builderPercentage b d = builderPercentageSpec b d ∧
      personalityOf cls b d = personalitySpec cls b d := by
  have hbp : ∀ b d : ℕ, builderPercentage b d = builderPercentageSpec b d := by
    intro b d
    unfold builderPercentage builderPercentageSpec
    rcases Nat.eq_zero_or_pos (b + d) with h | h
    · obtain ⟨hb, hd⟩ := Nat.add_eq_zero.mp h
      subst hb; subst hd
      norm_num
    · rw [if_pos h, if_neg (by omega)]
      congr 1
      have ht : ((b + d : ℕ) : ℚ) ≠ 0 := by
        exact_mod_cast Nat.pos_iff_ne_zero.mp h
      push_cast
      field_simp
      ring
  intro cls b d
  refine ⟨hbp b d, ?_⟩
  simp only [personalityOf, personalitySpec, degenPercentage, hbp]

/-- C8: one classification call leaves the module-level state unchanged
(the only module binding `fetchWalletScore` touches, `KNOWN_DAPPS`, is
read-only), and a second call on the same address against identical
responses returns an identical WalletScore: the result is a
deterministic function of the fetched inputs. -/
theorem c8_idempotent_no_hidden_state :
    ∀ (s : ModuleState) (addr : String) (r : SubResponses),
      (fetchWalletScoreM s addr r).2 = s ∧
      (fetchWalletScoreM (fetchWalletScoreM s addr r).2 addr r).1 =
        (fetchWalletScoreM s addr r).1 := by
  intro s addr r
  exact ⟨rfl, rfl⟩

/-- C9: builderPercentage and degenPercentage both lie in [0, 100] and
sum to exactly 100 for every pair of scores. -/
theorem c9_percentage_bounds_and_sum :
    ∀ b d : ℕ,
      0 ≤ builderPercentage b d ∧ builderPercentage b d ≤ 100 ∧
      0 ≤ degenPercentage b d ∧ degenPercentage b d ≤ 100 ∧
      builderPercentage b d + degenPercentage b d = 100 := by
  intro b d
  have h1 : 0 ≤ builderPercentage b d := by
    simp only [builderPercentage, jsRound]
    split
    · refine Int.le_floor.mpr ?_
      have hq : (0 : ℚ) ≤ (b : ℚ) / ((b + d : ℕ) : ℚ) * 100 := by positivity
      push_cast at hq ⊢
      linarith
    · norm_num
  have h2 : builderPercentage b d ≤ 100 := by
    simp only [builderPercentage, jsRound]
    split
    · rename_i ht
      have htq : (0 : ℚ) < (b : ℚ) + (d : ℚ) := by
        have h0 : (0 : ℚ) < ((b + d : ℕ) : ℚ) := by exact_mod_cast ht
        push_cast at h0
        linarith
      have hdq : (0 : ℚ) ≤ (d : ℚ) := by positivity
      have hle : (b : ℚ) / ((b : ℚ) + (d : ℚ)) ≤ 1 := by
        rw [div_le_one htq]
        linarith
      have hcast : ((b + d : ℕ) : ℚ) = (b : ℚ) + (d : ℚ) := by push_cast; ring
      rw [hcast]
      have hlt : (⌊(b : ℚ) / ((b : ℚ) + (d : ℚ)) * 100 + 1 / 2⌋ : ℤ) < 101 := by
        refine Int.floor_lt.mpr ?_
        push_cast
        nlinarith
      omega
    · norm_num
  refine ⟨h1, h2, ?_, ?_, ?_⟩ <;> unfold degenPercentage <;> omega

/-- C10: in the token-transfer pass, a transfer whose (lower-cased)
sender and receiver both equal the queried address takes both
independent branches and contributes exactly 3 degen points: +2 for the
sender branch plus +1 for the receiver branch. -/
theorem c10_self_transfer_contributes_three (addr : String) (a : ScoreAcc) (t : Transfer)
    (hf : (t.fromHash.map toLowerCase).getD "" = addr)
    (ht : (t.toHash.map toLowerCase).getD "" = addr) :
    (applyOneTransfer addr a t).degenScore = a.degenScore + 3 := by
  simp only [applyOneTransfer, hf, ht]
  repeat' split
  all_goals simp_all

/-- Witness for C10: a self-transfer evaluated on the initial
accumulator yields degenScore 3. -/
theorem c10_self_transfer_contributes_three_witness :
    ((some "0xABCD" : Option String).map toLowerCase).getD "" = "0xabcd" ∧
    (applyOneTransfer "0xabcd" initAcc
        ⟨some "0xABCD", some "0xabcd", none, none, none, none⟩).degenScore =
      initAcc.degenScore + 3 :=
  ⟨by decide,
   c10_self_transfer_contributes_three "0xabcd" initAcc
     ⟨some "0xABCD", some "0xabcd", none, none, none, none⟩ (by decide) (by decide)⟩
